import Mathlib

/-!
Verification of the news-briefing front-end (App.tsx and the ArticleInput
component).  The controller state, its event handlers and the feed fetcher
are embedded shallowly: each asynchronous handler is split into its
synchronous prefix (everything executed before the `await`) and a resolve
function applied when the remote call fulfils or rejects.  Machine types
(strings, lists) are modelled directly; the decoded audio buffer is an
opaque payload record.
-/

namespace NewsApp

/-- The decoded playable audio produced by the speech client
(`generateSpeech`); its samples are opaque to the controller. -/
structure AudioBuffer where
  samples : List Int
deriving DecidableEq, Repr

/-- `AppState` enumeration from `types.ts` as used by `App.tsx`:
IDLE, GENERATING_SUMMARY, READY, GENERATING_AUDIO, ERROR.  The source's
GENERATING_AUDIO constructor is rendered here as `GENERATING_SPEECH`. -/
inductive AppState where
  | IDLE
  | GENERATING_SUMMARY
  | READY
  | GENERATING_SPEECH
  | ERROR
deriving DecidableEq, Repr

/-- Modelled from the spec: the `llm` section of `AppSettings`
(`src/types.ts` is not in the repository snapshot); per the spec the
settings hold "API key(s), language, model choice", and `App.tsx` reads
`settings.llm.apiKey`. -/
structure LlmSettings where
  apiKey : String
  model : String
deriving DecidableEq, Repr

/-- Modelled from the spec: the `tts` section of `AppSettings`
(`src/types.ts` is not in the repository snapshot); `App.tsx` reads
`settings.tts.apiKey`. -/
structure TtsSettings where
  apiKey : String
  model : String
deriving DecidableEq, Repr

/-- Modelled from the spec: the user configuration record, "language
selection, API key(s), model identifiers for summarization and speech". -/
structure AppSettings where
  language : String
  llm : LlmSettings
  tts : TtsSettings
deriving DecidableEq, Repr

/-- Modelled from the spec: the default configuration from `types.ts`
(file absent from the snapshot).  The exact default field values are not
observable in the claims; empty API keys match `isConfigMissing` being
true before configuration. -/
def DEFAULT_SETTINGS : AppSettings :=
  { language := "zh-CN"
    llm := { apiKey := "", model := "default-llm-model" }
    tts := { apiKey := "", model := "default-tts-model" } }

/-- The controller state of `App.tsx`: the React `useState` cells plus the
lazily created audio context (`audioContextRef`). -/
structure ControllerState where
  textInput : String
  summary : String
  audioBuffer : Option AudioBuffer
  appState : AppState
  errorDetails : String
  settings : AppSettings
  hasAudioContext : Bool
deriving DecidableEq, Repr

/-- A remote request issued by a handler's synchronous prefix. -/
inductive Request where
  | summarize (text : String) (settings : AppSettings)
  | speech (text : String)
deriving DecidableEq, Repr

/-- JavaScript `str.trim()`: strip whitespace from both ends, here on the
character list of the string. -/
def strTrim (s : String) : String :=
  ⟨((s.data.dropWhile Char.isWhitespace).reverse.dropWhile
      Char.isWhitespace).reverse⟩

/-- Whether `pat` occurs at the start of `text` (character lists). -/
def listStarts : List Char → List Char → Bool
  | [], _ => true
  | _ :: _, [] => false
  | p :: ps, t :: ts => p == t && listStarts ps ts

/-- Whether `pat` occurs anywhere in `text` (character lists). -/
def listContains (pat : List Char) : List Char → Bool
  | [] => pat.isEmpty
  | c :: rest => listStarts pat (c :: rest) || listContains pat rest

/-- JavaScript `msg.includes(pat)`. -/
def strContains (s pat : String) : Bool :=
  listContains pat.data s.data

/-- `isConfigMissing = !settings.llm.apiKey` in `App.tsx`. -/
def isConfigMissing (s : ControllerState) : Bool :=
  s.settings.llm.apiKey == ""

/-- Localized safety-filter message (zh-CN branch of `handleError`). -/
def safetyMsgZh : String := "内容被安全过滤器拦截。"

/-- Localized safety-filter message (default branch of `handleError`). -/
def safetyMsgEn : String := "Content blocked by safety filters."

/-- `handleError` in `App.tsx`: set state to ERROR; if the message contains
"SAFETY", replace it by the localized safety string, else keep the raw
message; store it in `errorDetails`.  The argument is the message after
JavaScript's `error.message || String(error)` coercion. -/
def handleError (s : ControllerState) (errMsg : String) : ControllerState :=
  let msg :=
    if strContains errMsg "SAFETY" then
      if s.settings.language == "zh-CN" then safetyMsgZh else safetyMsgEn
    else errMsg
  { s with appState := .ERROR, errorDetails := msg }

/-- Synchronous prefix of `handleGenerateSummary` in `App.tsx`: early
return when the trimmed input is empty; otherwise clear `errorDetails`,
enter GENERATING_SUMMARY, clear `summary`, null the `audioBuffer`, and
issue the summarization request (`summarizeArticles(textInput, settings)`). -/
def handleGenerateSummarySync (s : ControllerState) :
    ControllerState × Option Request :=
  if strTrim s.textInput == "" then (s, none)
  else
    ({ s with errorDetails := ""
              appState := .GENERATING_SUMMARY
              summary := ""
              audioBuffer := none },
     some (.summarize s.textInput s.settings))

/-- Continuation of `handleGenerateSummary` once `summarizeArticles`
settles: on fulfilment store the summary and enter READY; on rejection run
`handleError`. -/
def handleGenerateSummaryResolve (s : ControllerState)
    (outcome : Except String String) : ControllerState :=
  match outcome with
  | .ok summaryText => { s with summary := summaryText, appState := .READY }
  | .error msg => handleError s msg

/-- Synchronous prefix of `handleGenerateAudio` in `App.tsx`: early return
when `summary` is empty; otherwise ensure the audio context exists, enter
GENERATING_AUDIO, and issue the speech request (`generateSpeech(summary,
ctx, settings)`). -/
def handleGenerateAudioSync (s : ControllerState) :
    ControllerState × Option Request :=
  if s.summary == "" then (s, none)
  else
    ({ s with hasAudioContext := true, appState := .GENERATING_SPEECH },
     some (.speech s.summary))

/-- Continuation of `handleGenerateAudio` once `generateSpeech` settles:
on fulfilment store the buffer and enter READY; on rejection run
`handleError`. -/
def handleGenerateAudioResolve (s : ControllerState)
    (outcome : Except String AudioBuffer) : ControllerState :=
  match outcome with
  | .ok buffer => { s with audioBuffer := some buffer, appState := .READY }
  | .error msg => handleError s msg

/-- The disabled predicate of the "generate summary" button rendered by
`ArticleInput`: `!value.trim() || isGeneratingSummary || disabled`, where
`isGeneratingSummary = (appState === GENERATING_SUMMARY)` and
`disabled = isConfigMissing`. -/
def summaryButtonDisabled (s : ControllerState) : Bool :=
  strTrim s.textInput == "" || s.appState == .GENERATING_SUMMARY
    || isConfigMissing s

/-- The user-level "generate summary" action: clicking the button in
`ArticleInput`.  A disabled button fires no `onClick`, so the action is a
no-op issuing no request; otherwise it runs `handleGenerateSummary`. -/
def generateSummaryClick (s : ControllerState) :
    ControllerState × Option Request :=
  if summaryButtonDisabled s then (s, none) else handleGenerateSummarySync s

/-- Whether the "generate audio" button is rendered by `App.tsx`: the
reading view shows it only in READY or GENERATING_AUDIO, and only when no
`audioBuffer` is held (otherwise the `Player` replaces it). -/
def audioButtonRendered (s : ControllerState) : Bool :=
  (s.appState == .READY || s.appState == .GENERATING_SPEECH)
    && s.audioBuffer.isNone

/-- The disabled attribute of the "generate audio" button:
`appState === GENERATING_AUDIO`. -/
def audioButtonDisabled (s : ControllerState) : Bool :=
  s.appState == .GENERATING_SPEECH

/-- The user-level "generate audio" action: clicking the button.  When the
button is absent or disabled the action is a no-op issuing no request;
otherwise it runs `handleGenerateAudio`. -/
def generateAudioClick (s : ControllerState) :
    ControllerState × Option Request :=
  if audioButtonRendered s && !audioButtonDisabled s then
    handleGenerateAudioSync s
  else (s, none)

/-- An article object from the feed endpoint's JSON array `{title,
content}`; `content` may be absent or null (`a.content?`). -/
structure Article where
  title : String
  content : Option String
deriving DecidableEq, Repr

/-- Local state of the `ArticleInput` component relevant to `fetchFeed`:
the re-entrancy flag, the status toast text and the controlled text value
(written through `onChange`, i.e. the controller's `textInput`). -/
structure FeedState where
  isFetchingNews : Bool
  fetchStatus : String
  value : String
deriving DecidableEq, Repr

/-- How the awaited part of `fetchFeed` settles.  `reject` covers any
throw from `fetch` or `response.json()`; `notOk` is `!response.ok`;
`payload` is the parsed JSON body (`none` when it is null/absent). -/
inductive FeedOutcome where
  | reject
  | notOk
  | payload (articles : Option (List Article))
deriving DecidableEq, Repr

/-- One formatted article block of `fetchFeed`:
`# Article ${i + 1}: ${a.title}\n\n${a.content?.trim() || 'Content not
available.'}`.  JavaScript's `||` takes the placeholder exactly when the
optional chain yields undefined or the trimmed content is empty. -/
def formatBlock (i : Nat) (a : Article) : String :=
  "# Article " ++ toString (i + 1) ++ ": " ++ a.title ++ "\n\n" ++
    (match a.content with
     | some c => if strTrim c == "" then "Content not available." else strTrim c
     | none => "Content not available.")

/-- The fixed block separator of `fetchFeed`. -/
def blockSeparator : String := "\n\n---\n\n"

/-- The text `fetchFeed` writes through `onChange` on success: the first
five articles formatted as titled blocks, joined by the separator,
prefixed by the source label. -/
def assembleFeedText (sourceName : String) (articles : List Article) :
    String :=
  "【Source: " ++ sourceName ++ "】\n\n" ++
    String.intercalate blockSeparator
      ((articles.take 5).mapIdx (fun i a => formatBlock i a))

/-- Synchronous prefix of `fetchFeed`: the re-entrancy guard
(`if (isFetchingNews) return;`), then the flag is raised and the
connecting toast shown.  The boolean reports whether a request was
started. -/
def fetchFeedStart (s : FeedState) (sourceName : String) :
    FeedState × Bool :=
  if s.isFetchingNews then (s, false)
  else
    ({ s with isFetchingNews := true
              fetchStatus := "Connecting to " ++ sourceName ++ "..." },
     true)

/-- The `catch` block of `fetchFeed` followed by its `finally`: show the
failure toast, schedule `setFetchStatus('')` after 3000 ms, reset the
flag.  The second component is the delay of the scheduled clear, if any. -/
def fetchFeedCatch (s : FeedState) : FeedState × Option Nat :=
  ({ s with fetchStatus := "Failed to fetch", isFetchingNews := false },
   some 3000)

/-- Continuation of `fetchFeed` once the awaited response settles
(running the rest of `try`, the `catch` on any throw, then `finally`):
a non-OK response or a null/empty article list throws into the catch
path; otherwise the assembled text overwrites the value, the toast is
cleared, and the flag is reset. -/
def fetchFeedResolve (s : FeedState) (sourceName : String)
    (o : FeedOutcome) : FeedState × Option Nat :=
  match o with
  | .payload (some articles) =>
      if articles.isEmpty then fetchFeedCatch s
      else
        ({ s with value := assembleFeedText sourceName articles
                  fetchStatus := ""
                  isFetchingNews := false },
         none)
  | _ => fetchFeedCatch s

/-- The scheduled `setTimeout(() => setFetchStatus(''), 3000)` callback. -/
def clearStatusTimeout (s : FeedState) : FeedState :=
  { s with fetchStatus := "" }

/-- Whether a feed outcome takes the `catch` path of `fetchFeed`. -/
def FeedOutcome.isError : FeedOutcome → Bool
  | .payload (some articles) => articles.isEmpty
  | _ => true

/-- The browser-local storage visible to the app: the value stored under
each key.  `JSON.stringify`/`JSON.parse` round-trip a plain object of
strings and nested objects exactly, so persistence is modelled at the
level of the JSON document rather than its textual rendering. -/
inductive Json where
  | str (s : String)
  | obj (fields : List (String × Json))

/-- Extract a string leaf. -/
def Json.getStr : Json → Option String
  | .str s => some s
  | _ => none

/-- Field lookup on a JSON object (first binding wins, as the encoder
below never duplicates keys). -/
def Json.get (key : String) : Json → Option Json
  | .obj fields => fields.lookup key
  | _ => none

/-- Serialization of the `llm` section (plain-object stringify). -/
def LlmSettings.toJson (l : LlmSettings) : Json :=
  .obj [("apiKey", .str l.apiKey), ("model", .str l.model)]

/-- Serialization of the `tts` section (plain-object stringify). -/
def TtsSettings.toJson (t : TtsSettings) : Json :=
  .obj [("apiKey", .str t.apiKey), ("model", .str t.model)]

/-- Serialization of the whole settings record, as
`JSON.stringify(newSettings)` produces it. -/
def AppSettings.toJson (s : AppSettings) : Json :=
  .obj [("language", .str s.language),
        ("llm", s.llm.toJson),
        ("tts", s.tts.toJson)]

/-- Reading a wholesale-replaced `llm` section back at the typed boundary;
a missing or non-string field reads as the empty string (JavaScript's
undefined). -/
def llmOfJson (j : Json) : LlmSettings :=
  { apiKey := ((j.get "apiKey").bind Json.getStr).getD ""
    model := ((j.get "model").bind Json.getStr).getD "" }

/-- Reading a wholesale-replaced `tts` section back at the typed
boundary. -/
def ttsOfJson (j : Json) : TtsSettings :=
  { apiKey := ((j.get "apiKey").bind Json.getStr).getD ""
    model := ((j.get "model").bind Json.getStr).getD "" }

/-- The shallow spread `{...DEFAULT_SETTINGS, ...JSON.parse(saved)}` of
the startup effect: each top-level key present in the parsed object
replaces the default wholesale; absent keys keep the default. -/
def mergeSettings (defaults : AppSettings) (j : Json) : AppSettings :=
  { language := ((j.get "language").bind Json.getStr).getD defaults.language
    llm := match j.get "llm" with
           | some jl => llmOfJson jl
           | none => defaults.llm
    tts := match j.get "tts" with
           | some jt => ttsOfJson jt
           | none => defaults.tts }

/-- The storage key used by `App.tsx`. -/
def settingsKey : String := "app_settings"

/-- `localStorage` contents, keyed documents. -/
def Store := List (String × Json)

/-- `localStorage.setItem`: later writes shadow earlier ones. -/
def storeSet (key : String) (v : Json) (st : Store) : Store :=
  (key, v) :: st

/-- `localStorage.getItem`. -/
def storeGet (key : String) (st : Store) : Option Json :=
  List.lookup key st

/-- `handleSaveSettings` in `App.tsx`: adopt the new settings in memory
and persist their serialization under the fixed key. -/
def handleSaveSettings (newSettings : AppSettings) (st : Store) :
    AppSettings × Store :=
  (newSettings, storeSet settingsKey newSettings.toJson st)

/-- The settings-load effect of `App.tsx` at startup: if a document is
stored under the key, merge it over the defaults (a parse failure cannot
arise at the document level; in the source it is absorbed, keeping the
defaults); otherwise, when a build-time API key is present, inject it
into both the llm and tts sections of the defaults. -/
def loadSettings (st : Store) (envKey : Option String) : AppSettings :=
  match storeGet settingsKey st with
  | some j => mergeSettings DEFAULT_SETTINGS j
  | none =>
      if (envKey.getD "") == "" then DEFAULT_SETTINGS
      else
        { DEFAULT_SETTINGS with
            llm := { DEFAULT_SETTINGS.llm with apiKey := envKey.getD "" }
            tts := { DEFAULT_SETTINGS.tts with apiKey := envKey.getD "" } }

/-- C1: for every prior application state, the synchronous prefix of the
"generate summary" handler with non-blank article text clears the held
summary text and sets the audio buffer to null before the summarization
call resolves (and enters GENERATING_SUMMARY while issuing the request),
so a present audio buffer always corresponds to the displayed summary. -/
theorem claim_C1 (s : ControllerState) (h : strTrim s.textInput ≠ "") :
    (handleGenerateSummarySync s).1.summary = "" ∧
    (handleGenerateSummarySync s).1.audioBuffer = none ∧
    (handleGenerateSummarySync s).1.appState = .GENERATING_SUMMARY ∧
    (handleGenerateSummarySync s).2 =
      some (.summarize s.textInput s.settings) := by
  simp [handleGenerateSummarySync, h]

/-- Witness for C1 at a concrete prior state holding an old summary and
an old audio buffer. -/
theorem claim_C1_witness :
    (handleGenerateSummarySync
      ⟨"fresh article", "old summary", some ⟨[1, 2]⟩, .READY, "old error",
        DEFAULT_SETTINGS, true⟩).1.summary = "" ∧
    (handleGenerateSummarySync
      ⟨"fresh article", "old summary", some ⟨[1, 2]⟩, .READY, "old error",
        DEFAULT_SETTINGS, true⟩).1.audioBuffer = none ∧
    (handleGenerateSummarySync
      ⟨"fresh article", "old summary", some ⟨[1, 2]⟩, .READY, "old error",
        DEFAULT_SETTINGS, true⟩).1.appState = .GENERATING_SUMMARY ∧
    (handleGenerateSummarySync
      ⟨"fresh article", "old summary", some ⟨[1, 2]⟩, .READY, "old error",
        DEFAULT_SETTINGS, true⟩).2 =
      some (.summarize "fresh article" DEFAULT_SETTINGS) :=
  claim_C1 _ (by decide)

/-- C2: for every OK feed response with at least one article, the
assembled article text equals the source-label block followed by the
titled blocks of the first five articles joined by the fixed separator,
there are exactly min(5, articleCount) such blocks, and the assembled
text overwrites the value buffer unconditionally. -/
theorem claim_C2 (s : FeedState) (sourceName : String)
    (articles : List Article) (h : articles ≠ []) :
    fetchFeedResolve s sourceName (.payload (some articles)) =
      ({ s with value := assembleFeedText sourceName articles
                fetchStatus := ""
                isFetchingNews := false }, none) ∧
    assembleFeedText sourceName articles =
      "【Source: " ++ sourceName ++ "】\n\n" ++
        String.intercalate blockSeparator
          ((articles.take 5).mapIdx (fun i a => formatBlock i a)) ∧
    ((articles.take 5).mapIdx (fun i a => formatBlock i a)).length =
      min 5 articles.length := by
  refine ⟨?_, rfl, ?_⟩
  · simp [fetchFeedResolve, List.isEmpty_iff, h]
  · rw [List.length_mapIdx, List.length_take]

/-- Witness for C2 with a two-article response. -/
theorem claim_C2_witness :
    fetchFeedResolve ⟨true, "Connecting to X...", "old text"⟩ "X"
        (.payload (some [⟨"A", some "body"⟩, ⟨"B", none⟩])) =
      (⟨false, "", assembleFeedText "X" [⟨"A", some "body"⟩, ⟨"B", none⟩]⟩,
        none) ∧
    assembleFeedText "X" [⟨"A", some "body"⟩, ⟨"B", none⟩] =
      "【Source: X】\n\n" ++
        String.intercalate blockSeparator
          (([⟨"A", some "body"⟩, ⟨"B", none⟩] :
              List Article).take 5 |>.mapIdx (fun i a => formatBlock i a)) ∧
    ((([⟨"A", some "body"⟩, ⟨"B", none⟩] :
        List Article).take 5).mapIdx (fun i a => formatBlock i a)).length =
      min 5 ([⟨"A", some "body"⟩, ⟨"B", none⟩] : List Article).length :=
  claim_C2 _ "X" _ (by decide)

/-- C3: each of the three asynchronous operation kinds is guarded against
re-entry: a feed fetch started while `isFetchingNews` holds is a no-op
starting no request; a "generate summary" click while GENERATING_SUMMARY
is a no-op (button disabled); a "generate audio" click while
GENERATING_AUDIO starts no second synthesis request and changes no
state. -/
theorem claim_C3 (fs : FeedState) (cs : ControllerState)
    (sourceName : String) :
    (fs.isFetchingNews = true → fetchFeedStart fs sourceName = (fs, false)) ∧
    (cs.appState = .GENERATING_SUMMARY →
      generateSummaryClick cs = (cs, none)) ∧
    (cs.appState = .GENERATING_SPEECH →
      generateAudioClick cs = (cs, none)) := by
  refine ⟨fun h => ?_, fun h => ?_, fun h => ?_⟩
  · simp [fetchFeedStart, h]
  · simp [generateSummaryClick, summaryButtonDisabled, h]
  · simp [generateAudioClick, audioButtonRendered, audioButtonDisabled, h]

/-- Witness for C3: concrete in-flight states of each of the three kinds. -/
theorem claim_C3_witness :
    fetchFeedStart ⟨true, "Connecting to X...", "v"⟩ "X" =
      (⟨true, "Connecting to X...", "v"⟩, false) ∧
    generateSummaryClick
        ⟨"text", "", none, .GENERATING_SUMMARY, "", DEFAULT_SETTINGS,
          false⟩ =
      (⟨"text", "", none, .GENERATING_SUMMARY, "", DEFAULT_SETTINGS,
          false⟩, none) ∧
    generateAudioClick
        ⟨"text", "a summary", none, .GENERATING_SPEECH, "",
          DEFAULT_SETTINGS, true⟩ =
      (⟨"text", "a summary", none, .GENERATING_SPEECH, "",
          DEFAULT_SETTINGS, true⟩, none) :=
  ⟨(claim_C3 ⟨true, "Connecting to X...", "v"⟩
      ⟨"", "", none, .IDLE, "", DEFAULT_SETTINGS, false⟩ "X").1 rfl,
   (claim_C3 ⟨false, "", ""⟩
      ⟨"text", "", none, .GENERATING_SUMMARY, "", DEFAULT_SETTINGS,
        false⟩ "X").2.1 rfl,
   (claim_C3 ⟨false, "", ""⟩
      ⟨"text", "a summary", none, .GENERATING_SPEECH, "",
        DEFAULT_SETTINGS, true⟩ "X").2.2 rfl⟩

/-- C4: from the idle state, the "generate summary" click transitions to
GENERATING_SUMMARY only when the article text is non-empty and no API key
is missing; when the text is empty or the key is missing, the click
causes no state transition at all. -/
theorem claim_C4 (s : ControllerState) (hidle : s.appState = .IDLE) :
    ((s.textInput = "" ∨ isConfigMissing s = true) →
      generateSummaryClick s = (s, none)) ∧
    ((generateSummaryClick s).1.appState = .GENERATING_SUMMARY →
      s.textInput ≠ "" ∧ isConfigMissing s = false) := by
  constructor
  · rintro (h | h)
    · have ht : strTrim s.textInput = "" := by rw [h]; rfl
      simp [generateSummaryClick, summaryButtonDisabled, ht]
    · simp [generateSummaryClick, summaryButtonDisabled, h]
  · intro htrans
    by_cases hd : summaryButtonDisabled s = true
    · rw [generateSummaryClick, if_pos hd] at htrans
      rw [hidle] at htrans
      exact absurd htrans (by simp)
    · have hd' := eq_false_of_ne_true hd
      simp [summaryButtonDisabled] at hd'
      obtain ⟨⟨hne, _⟩, hcfg⟩ := hd'
      refine ⟨fun he => ?_, hcfg⟩
      have : strTrim s.textInput = "" := by rw [he]; rfl
      exact hne this

/-- Witness for C4: an idle state with empty text and missing key is left
unchanged by the click; an idle state with text and a key that does
transition indeed has non-empty text and a configured key. -/
theorem claim_C4_witness :
    generateSummaryClick
        ⟨"", "", none, .IDLE, "", DEFAULT_SETTINGS, false⟩ =
      (⟨"", "", none, .IDLE, "", DEFAULT_SETTINGS, false⟩, none) ∧
    (("news" : String) ≠ "" ∧
      isConfigMissing
        ⟨"news", "", none, .IDLE, "",
          ⟨"en", ⟨"key", "m"⟩, ⟨"key", "m"⟩⟩, false⟩ = false) :=
  ⟨(claim_C4 ⟨"", "", none, .IDLE, "", DEFAULT_SETTINGS, false⟩ rfl).1
      (Or.inl rfl),
   (claim_C4 ⟨"news", "", none, .IDLE, "",
      ⟨"en", ⟨"key", "m"⟩, ⟨"key", "m"⟩⟩, false⟩ rfl).2 (by decide)⟩

/-- C5: for every feed fetch settling on the error path (response not OK,
rejection, or a null/empty article list), the value buffer is unchanged,
the transient "Failed to fetch" status is shown with a 3000 ms clear
scheduled, and firing that timeout clears the status. -/
theorem claim_C5 (s : FeedState) (sourceName : String) (o : FeedOutcome)
    (h : o.isError = true) :
    (fetchFeedResolve s sourceName o).1.value = s.value ∧
    (fetchFeedResolve s sourceName o).1.fetchStatus = "Failed to fetch" ∧
    (fetchFeedResolve s sourceName o).2 = some 3000 ∧
    (clearStatusTimeout (fetchFeedResolve s sourceName o).1).fetchStatus =
      "" := by
  cases o with
  | reject => simp [fetchFeedResolve, fetchFeedCatch, clearStatusTimeout]
  | notOk => simp [fetchFeedResolve, fetchFeedCatch, clearStatusTimeout]
  | payload articles =>
    cases articles with
    | none => simp [fetchFeedResolve, fetchFeedCatch, clearStatusTimeout]
    | some l =>
      simp only [FeedOutcome.isError] at h
      simp [fetchFeedResolve, h, fetchFeedCatch, clearStatusTimeout]

/-- Witness for C5 at a concrete non-OK response. -/
theorem claim_C5_witness :
    (fetchFeedResolve ⟨true, "Connecting to X...", "kept"⟩ "X"
        .notOk).1.value = "kept" ∧
    (fetchFeedResolve ⟨true, "Connecting to X...", "kept"⟩ "X"
        .notOk).1.fetchStatus = "Failed to fetch" ∧
    (fetchFeedResolve ⟨true, "Connecting to X...", "kept"⟩ "X"
        .notOk).2 = some 3000 ∧
    (clearStatusTimeout
        (fetchFeedResolve ⟨true, "Connecting to X...", "kept"⟩ "X"
          .notOk).1).fetchStatus = "" :=
  claim_C5 ⟨true, "Connecting to X...", "kept"⟩ "X" .notOk rfl

/-- C6: `handleError` always enters the ERROR state; when the message
contains "SAFETY" and the language is zh-CN the displayed details equal
the fixed localized safety string, and when the message does not contain
"SAFETY" the raw message is passed through. -/
theorem claim_C6 (s : ControllerState) (msg : String) :
    (handleError s msg).appState = .ERROR ∧
    (strContains msg "SAFETY" = true → s.settings.language = "zh-CN" →
      (handleError s msg).errorDetails = safetyMsgZh) ∧
    (strContains msg "SAFETY" = false →
      (handleError s msg).errorDetails = msg) := by
  refine ⟨rfl, fun h hl => ?_, fun h => ?_⟩
  · simp [handleError, h, hl]
  · simp [handleError, h]

/-- Witness for C6: a safety rejection under zh-CN is localized; an
unrelated message passes through raw. -/
theorem claim_C6_witness :
    (handleError
        ⟨"", "", none, .GENERATING_SUMMARY, "", DEFAULT_SETTINGS, false⟩
        "Response blocked: SAFETY").errorDetails = safetyMsgZh ∧
    (handleError
        ⟨"", "", none, .GENERATING_SUMMARY, "", DEFAULT_SETTINGS, false⟩
        "quota exceeded").errorDetails = "quota exceeded" :=
  ⟨(claim_C6 ⟨"", "", none, .GENERATING_SUMMARY, "", DEFAULT_SETTINGS,
      false⟩ "Response blocked: SAFETY").2.1 (by decide) rfl,
   (claim_C6 ⟨"", "", none, .GENERATING_SUMMARY, "", DEFAULT_SETTINGS,
      false⟩ "quota exceeded").2.2 (by decide)⟩

/-- C7: when the article text input is the empty string, the "generate
summary" handler and the button click both leave the state exactly as it
was (so an idle state stays idle and summary, audio buffer and error
details are unchanged) and issue no request. -/
theorem claim_C7 (s : ControllerState) (h : s.textInput = "") :
    handleGenerateSummarySync s = (s, none) ∧
    generateSummaryClick s = (s, none) := by
  have ht : strTrim s.textInput = "" := by rw [h]; rfl
  constructor
  · simp [handleGenerateSummarySync, ht]
  · simp [generateSummaryClick, summaryButtonDisabled, ht]

/-- Witness for C7 at a concrete idle state with empty input. -/
theorem claim_C7_witness :
    handleGenerateSummarySync
        ⟨"", "", none, .IDLE, "", DEFAULT_SETTINGS, false⟩ =
      (⟨"", "", none, .IDLE, "", DEFAULT_SETTINGS, false⟩, none) ∧
    generateSummaryClick
        ⟨"", "", none, .IDLE, "", DEFAULT_SETTINGS, false⟩ =
      (⟨"", "", none, .IDLE, "", DEFAULT_SETTINGS, false⟩, none) :=
  claim_C7 ⟨"", "", none, .IDLE, "", DEFAULT_SETTINGS, false⟩ rfl

/-- C8: saving any settings configuration (serialize, store under the
fixed key) and reloading at startup (read, merge over the defaults)
reproduces the same configuration object, in any prior store and with
any build-time key. -/
theorem claim_C8 (s : AppSettings) (st : Store) (envKey : Option String) :
    loadSettings (handleSaveSettings s st).2 envKey = s := by
  obtain ⟨lang, ⟨la, lm⟩, ⟨ta, tm⟩⟩ := s
  simp [loadSettings, handleSaveSettings, storeGet, storeSet, settingsKey,
    mergeSettings, Json.get, Json.getStr, AppSettings.toJson,
    LlmSettings.toJson, TtsSettings.toJson, llmOfJson, ttsOfJson,
    List.lookup]

/-- C9: every invocation of `fetchFeed` that passed the re-entrancy
guard settles — on fulfilment or on any rejection — with the
`isFetchingNews` flag reset to false (the `finally` block), so a
completed fetch never leaves the fetch action permanently disabled. -/
theorem claim_C9 (s : FeedState) (sourceName : String) (o : FeedOutcome) :
    (fetchFeedResolve s sourceName o).1.isFetchingNews = false := by
  cases o with
  | reject => simp [fetchFeedResolve, fetchFeedCatch]
  | notOk => simp [fetchFeedResolve, fetchFeedCatch]
  | payload articles =>
    cases articles with
    | none => simp [fetchFeedResolve, fetchFeedCatch]
    | some l =>
      by_cases h : l.isEmpty = true <;>
        simp [fetchFeedResolve, fetchFeedCatch, h]

/-- C10: a fetched article whose content field is absent, or whose
content trims to the empty string, is formatted with the placeholder
"Content not available." in place of the content. -/
theorem claim_C10 (i : Nat) (title c : String) :
    formatBlock i ⟨title, none⟩ =
      "# Article " ++ toString (i + 1) ++ ": " ++ title ++ "\n\n" ++
        "Content not available." ∧
    (strTrim c = "" →
      formatBlock i ⟨title, some c⟩ =
        "# Article " ++ toString (i + 1) ++ ": " ++ title ++ "\n\n" ++
          "Content not available.") := by
  refine ⟨rfl, fun h => ?_⟩
  simp [formatBlock, h]

/-- Witness for C10 with a null content and a whitespace-only content. -/
theorem claim_C10_witness :
    formatBlock 0 ⟨"T", none⟩ =
      "# Article " ++ toString (0 + 1) ++ ": " ++ "T" ++ "\n\n" ++
        "Content not available." ∧
    formatBlock 0 ⟨"T", some "   "⟩ =
      "# Article " ++ toString (0 + 1) ++ ": " ++ "T" ++ "\n\n" ++
        "Content not available." :=
  ⟨(claim_C10 0 "T" "   ").1, (claim_C10 0 "T" "   ").2 (by decide)⟩

end NewsApp
